import Mathlib

/-!
Shallow embedding of the email-tracking server (repository `tracker`).

The repository contains two variants of the tracking server:
  * `src/index.js`          — modelled in namespace `IndexJs`;
  * `src/unnamed/part_000`  — modelled in namespace `Part000`.
Both define the same data model (`ensureEmailDocument`, the tracking
collections, the transparent GIF) but differ in the open-tracking
handler `GET /track/open/:emailId`:
  * `index.js` checks a user-agent denylist only, and performs a
    30-second recent-duplicate check before inserting an OpenEvent;
  * `part_000` checks a larger user-agent denylist, loopback addresses
    and a minimum user-agent length, plus a 5000 ms send-time proximity
    check, but performs no duplicate suppression.

Modelling conventions:
  * JS strings are `List Char` (`Str`); `String.prototype.includes(t)`
    is the infix relation `t <:+: s`; `toLowerCase` is
    `List.map Char.toLower` (all denylist entries are ASCII, where the
    two agree).
  * ISO-8601 timestamp strings are modelled as `Nat` milliseconds.
    Strings of the fixed `toISOString` format compare lexicographically
    exactly as their times compare numerically, so the Mongo `$gte`
    string comparison in the dedup query is `≤` on `Nat`.  The JS
    subtractions `Date.now() - 30000` and `now - sentTime` can be
    negative; truncated `Nat` subtraction gives `0` there, and in both
    places the resulting comparison (`anything ≥ 0`, `0 < 5000`) has
    the same truth value as in JS.
  * Each request handler observes a single current time `now` and a
    single fresh random id `newId` (the JS code calls `Date.now()` /
    `nowIso()` several microseconds apart within one request; nothing
    in the handlers distinguishes those instants).
  * Mongo operations: `findOne` is `List.find?` (natural = insertion
    order), `insertOne` appends, `updateOne` updates the first match
    (`updateFirst`), `updateOne … {upsert} $setOnInsert` inserts a new
    document only when the filter matches nothing.
  * A store operation that raises is modelled by a `Faults` flag: the
    operation has no effect and control transfers to the enclosing
    `catch` block, exactly as in the JS `try`/`catch` structure.
  * `part_000`'s `openData` additionally carries `readingTime: null`
    and `readingStartTime` (consumed only by the reading-time endpoint,
    which no claim touches); these fields are omitted from the model.
-/

namespace Tracker

/-- JS strings as lists of characters. -/
abbrev Str := List Char

/-- Coerce a Lean string literal to the `Str` representation. -/
def str (s : String) : Str := s.data

/-- Value of one base64 digit (the alphabet used by `Buffer.from(_, 'base64')`). -/
def base64Val (c : Char) : Nat :=
  if 'A' ≤ c ∧ c ≤ 'Z' then c.toNat - 65
  else if 'a' ≤ c ∧ c ≤ 'z' then c.toNat - 97 + 26
  else if '0' ≤ c ∧ c ≤ '9' then c.toNat - 48 + 52
  else if c = '+' then 62
  else if c = '/' then 63
  else 0

/-- Base64 decoding of a padding-free string (groups of 4 digits to 3 bytes). -/
def base64Decode : List Char → List Nat
  | a :: b :: c :: d :: rest =>
      let n := base64Val a * 262144 + base64Val b * 4096 + base64Val c * 64 + base64Val d
      (n / 65536) :: (n / 256 % 256) :: (n % 256) :: base64Decode rest
  | _ => []

/-- The 1x1 transparent GIF served by every tracking-pixel response, decoded
from the base64 literal in the source. -/
def transparentGif : List Nat :=
  base64Decode (str "R0lGODlhAQABAIAAAAAAAP///yH5BAEAAAAALAAAAAABAAEAAAIBRAA7")

/-- Body of an HTTP response. -/
inductive ResponseBody
  | bytes (b : List Nat)
  | text (t : Str)
  | noBody
deriving DecidableEq, Repr

/-- The parts of an Express response the tracking handlers set. -/
structure Response where
  status : Nat
  contentType : Option Str := none
  contentLength : Option Nat := none
  cacheControl : Option Str := none
  pragma : Option Str := none
  expires : Option Str := none
  location : Option Str := none
  body : ResponseBody
deriving DecidableEq, Repr

/-- The tracking-pixel response every branch of the open handlers produces:
`200 OK`, `image/gif`, the 42-byte GIF, and the cache-disabling headers. -/
def pixelResponse : Response :=
  { status := 200
    contentType := some (str "image/gif")
    contentLength := some transparentGif.length
    cacheControl := some (str "no-cache, no-store, must-revalidate")
    pragma := some (str "no-cache")
    expires := some (str "0")
    location := none
    body := ResponseBody.bytes transparentGif }

/-- One document of the `email_tracking` collection. -/
structure EmailRecord where
  id : Str
  sentAt : Nat
  status : Str
  openCount : Nat
  clickCount : Nat
  attachmentDownloads : Nat
  attachmentOpens : Nat
  lastOpenedAt : Option Nat := none
  lastClickedAt : Option Nat := none
  recipientEmail : Option Str := none
deriving DecidableEq, Repr

/-- One document of the `email_opens` collection. -/
structure OpenEvent where
  id : Str
  emailId : Str
  recipientEmail : Str
  userAgent : Str
  ipAddress : Str
  timestamp : Nat
deriving DecidableEq, Repr

/-- One document of the `email_clicks` collection. -/
structure ClickEvent where
  id : Str
  emailId : Str
  url : Str
  recipientEmail : Str
  userAgent : Str
  ipAddress : Str
  timestamp : Nat
deriving DecidableEq, Repr

/-- The document store: the three collections the open/click handlers touch. -/
structure Store where
  emailTracking : List EmailRecord
  emailOpens : List OpenEvent
  emailClicks : List ClickEvent
deriving DecidableEq, Repr

/-- The `defaults` argument of `ensureEmailDocument`: a JS object spread over
`baseDefaults`, so a field is overridden exactly when it is present. -/
structure EmailDefaults where
  id : Option Str := none
  sentAt : Option Nat := none
  status : Option Str := none
  openCount : Option Nat := none
  clickCount : Option Nat := none
  attachmentDownloads : Option Nat := none
  attachmentOpens : Option Nat := none
  recipientEmail : Option Str := none
deriving DecidableEq, Repr

/-- The document `{ ...baseDefaults, ...defaults }` built inside
`ensureEmailDocument`: base values seeded from `now`/`emailId`, each
overridden by the corresponding field of `defaults` when present. -/
def baseDefaults (now : Nat) (emailId : Str) (d : EmailDefaults) : EmailRecord :=
  { id := d.id.getD emailId
    sentAt := d.sentAt.getD now
    status := d.status.getD (str "sent")
    openCount := d.openCount.getD 0
    clickCount := d.clickCount.getD 0
    attachmentDownloads := d.attachmentDownloads.getD 0
    attachmentOpens := d.attachmentOpens.getD 0
    lastOpenedAt := none
    lastClickedAt := none
    recipientEmail := d.recipientEmail }

/-- `updateOne(filter, update)`: apply `f` to the first element matching `p`. -/
def updateFirst (p : α → Bool) (f : α → α) : List α → List α
  | [] => []
  | x :: xs => if p x then f x :: xs else x :: updateFirst p f xs

/-- Mongo `updateOne(filter, update, {upsert: true})`: apply the update to the
first matching document, or insert `onInsert` when nothing matches. -/
def updateOneUpsert (p : α → Bool) (applyUpdate : α → α) (onInsert : α)
    (col : List α) : List α :=
  if (col.find? p).isSome then updateFirst p applyUpdate col else col ++ [onInsert]

/-- `ensureEmailDocument(emailId, defaults)` (identical in `index.js` and
`part_000`): `updateOne({id: emailId}, {$setOnInsert: baseDefaults}, {upsert:
true})` on `email_tracking`.  A `$setOnInsert`-only update changes nothing on
the update path (its `applyUpdate` is the identity) and seeds the inserted
document on the upsert path. -/
def ensureEmailDocument (now : Nat) (emailId : Str) (d : EmailDefaults)
    (col : List EmailRecord) : List EmailRecord :=
  updateOneUpsert (fun r => r.id == emailId) (fun r => r)
    (baseDefaults now emailId d) col

/-- The metadata of one `GET /track/open/:emailId` request. -/
structure OpenRequest where
  emailId : Str
  recipientEmail : Str
  userAgent : Str
  ipAddress : Str
deriving DecidableEq, Repr

namespace IndexJs

/-- The `suspiciousUserAgents` denylist of `src/index.js`. -/
def suspiciousUserAgents : List Str :=
  [str "bot", str "crawler", str "spider", str "scanner", str "checker", str "monitor",
   str "preview", str "prefetch", str "security", str "antivirus", str "firewall"]

/-- `isSuspicious`: some denylist term occurs in the lowercased user agent. -/
def isSuspicious (userAgent : Str) : Bool :=
  suspiciousUserAgents.any (fun term => decide (term <:+: userAgent.map Char.toLower))

/-- Which store operations of the `index.js` open handler raise an error. -/
structure Faults where
  ensureFails : Bool := false
  dedupFindFails : Bool := false
  insertFails : Bool := false
  incFails : Bool := false
deriving DecidableEq, Repr

/-- The `GET /track/open/:emailId` handler of `src/index.js`: reject on a
suspicious user agent; otherwise upsert the EmailRecord, skip recording when
an OpenEvent for the same `(emailId, recipientEmail)` exists within the last
30000 ms, else insert the OpenEvent and increment `openCount`; any store
error falls to the catch block; every branch serves the pixel. -/
def trackOpen (now : Nat) (newId : Str) (f : Faults) (req : OpenRequest)
    (s : Store) : Store × Response :=
  if isSuspicious req.userAgent then
    (s,
     { status := 200
       contentType := some (str "image/gif")
       contentLength := some transparentGif.length
       cacheControl := some (str "no-cache, no-store, must-revalidate")
       pragma := some (str "no-cache")
       expires := some (str "0")
       location := none
       body := ResponseBody.bytes transparentGif })
  else
    let openData : OpenEvent :=
      { id := newId
        emailId := req.emailId
        recipientEmail := req.recipientEmail
        userAgent := req.userAgent
        ipAddress := req.ipAddress
        timestamp := now }
    let afterTry : Store :=
      if f.ensureFails then s
      else
        let d : EmailDefaults := { recipientEmail := some req.recipientEmail }
        let s1 := { s with emailTracking :=
          ensureEmailDocument now req.emailId d s.emailTracking }
        if f.dedupFindFails then s1
        else
          let recentOpen := s1.emailOpens.find? (fun o =>
            o.emailId == req.emailId && o.recipientEmail == req.recipientEmail &&
              decide (now - 30000 ≤ o.timestamp))
          match recentOpen with
          | some _ => s1
          | none =>
            if f.insertFails then s1
            else
              let s2 := { s1 with emailOpens := s1.emailOpens ++ [openData] }
              if f.incFails then s2
              else
                let tracked := updateFirst (fun r => r.id == req.emailId)
                  (fun r => { r with
                    openCount := r.openCount + 1
                    lastOpenedAt := some openData.timestamp
                    recipientEmail := some req.recipientEmail })
                  s2.emailTracking
                { s2 with emailTracking := tracked }
    (afterTry,
     { status := 200
       contentType := some (str "image/gif")
       contentLength := some transparentGif.length
       cacheControl := some (str "no-cache, no-store, must-revalidate")
       pragma := some (str "no-cache")
       expires := some (str "0")
       location := none
       body := ResponseBody.bytes transparentGif })

/-- The dedup filter of the `index.js` handler: an OpenEvent of the same
`(emailId, recipientEmail)` pair with `timestamp ≥ now - 30000`. -/
def recentPred (now : Nat) (req : OpenRequest) (o : OpenEvent) : Bool :=
  o.emailId == req.emailId && o.recipientEmail == req.recipientEmail &&
    decide (now - 30000 ≤ o.timestamp)

/-- The store after a duplicate-suppressed `index.js` request: the upsert ran,
nothing else did. -/
def dedupSkippedStore (now : Nat) (req : OpenRequest) (s : Store) : Store :=
  let d : EmailDefaults := { recipientEmail := some req.recipientEmail }
  { s with emailTracking := ensureEmailDocument now req.emailId d s.emailTracking }

end IndexJs

namespace Part000

/-- The `automatedAgents` denylist of `src/unnamed/part_000`. -/
def automatedAgents : List Str :=
  [str "bot", str "crawler", str "spider", str "scraper", str "preview", str "validator",
   str "checker", str "monitor", str "scanner", str "fetcher", str "downloader",
   str "email", str "mail", str "client", str "server", str "daemon", str "service"]

/-- `isAutomatedRequest`: denylist match, loopback address, or a user agent
shorter than 10 characters (`!userAgent || userAgent.length < 10`; the empty
string is falsy and also has length `< 10`, so the disjunction is just the
length test). -/
def isAutomatedRequest (userAgent ipAddress : Str) : Bool :=
  if automatedAgents.any (fun agent => decide (agent <:+: userAgent.map Char.toLower)) then
    true
  else if ipAddress == str "127.0.0.1" || ipAddress == str "::1"
      || ipAddress == str "localhost" then
    true
  else if userAgent.length < 10 then
    true
  else
    false

/-- Which store operations of the `part_000` open handler raise an error. -/
structure Faults where
  sendFindFails : Bool := false
  ensureFails : Bool := false
  insertFails : Bool := false
  incFails : Bool := false
deriving DecidableEq, Repr

/-- The `GET /track/open/:emailId` handler of `src/unnamed/part_000`: reject
when `isAutomatedRequest`; then the send-time check — if the EmailRecord
exists and `now - sentAt < 5000` (the comment says 30 seconds, the code
checks 5000 ms), reject; a failure of that lookup is caught and handling
continues; otherwise insert the OpenEvent and increment `openCount` (no
duplicate suppression); every branch serves the pixel. -/
def trackOpen (now : Nat) (newId : Str) (f : Faults) (req : OpenRequest)
    (s : Store) : Store × Response :=
  if isAutomatedRequest req.userAgent req.ipAddress then
    (s,
     { status := 200
       contentType := some (str "image/gif")
       contentLength := some transparentGif.length
       cacheControl := some (str "no-cache, no-store, must-revalidate")
       pragma := some (str "no-cache")
       expires := some (str "0")
       location := none
       body := ResponseBody.bytes transparentGif })
  else
    let sendTimeReject : Bool :=
      if f.sendFindFails then false
      else
        match s.emailTracking.find? (fun r => r.id == req.emailId) with
        | some emailDoc => decide (now - emailDoc.sentAt < 5000)
        | none => false
    if sendTimeReject then
      (s,
       { status := 200
         contentType := some (str "image/gif")
         contentLength := some transparentGif.length
         cacheControl := some (str "no-cache, no-store, must-revalidate")
         pragma := some (str "no-cache")
         expires := some (str "0")
         location := none
         body := ResponseBody.bytes transparentGif })
    else
      let openData : OpenEvent :=
        { id := newId
          emailId := req.emailId
          recipientEmail := req.recipientEmail
          userAgent := req.userAgent
          ipAddress := req.ipAddress
          timestamp := now }
      let afterTry : Store :=
        if f.ensureFails then s
        else
          let d : EmailDefaults := { recipientEmail := some req.recipientEmail }
          let s1 := { s with emailTracking :=
            ensureEmailDocument now req.emailId d s.emailTracking }
          if f.insertFails then s1
          else
            let s2 := { s1 with emailOpens := s1.emailOpens ++ [openData] }
            if f.incFails then s2
            else
              let tracked := updateFirst (fun r => r.id == req.emailId)
                (fun r => { r with
                  openCount := r.openCount + 1
                  lastOpenedAt := some openData.timestamp
                  recipientEmail := some req.recipientEmail })
                s2.emailTracking
              { s2 with emailTracking := tracked }
      (afterTry,
       { status := 200
         contentType := some (str "image/gif")
         contentLength := some transparentGif.length
         cacheControl := some (str "no-cache, no-store, must-revalidate")
         pragma := some (str "no-cache")
         expires := some (str "0")
         location := none
         body := ResponseBody.bytes transparentGif })

end Part000

/-- The metadata of one `GET /track/click/:emailId` request (`url` is the
optional `url` query parameter). -/
structure ClickRequest where
  emailId : Str
  url : Option Str
  recipientEmail : Str
  userAgent : Str
  ipAddress : Str
deriving DecidableEq, Repr

/-- Which store operations of the click handler raise an error. -/
structure ClickFaults where
  ensureFails : Bool := false
  insertFails : Bool := false
  incFails : Bool := false
deriving DecidableEq, Repr

/-- The `clickData` document built by the click handler. -/
def clickDataOf (now : Nat) (newId : Str) (req : ClickRequest) (url : Str) : ClickEvent :=
  { id := newId
    emailId := req.emailId
    url := url
    recipientEmail := req.recipientEmail
    userAgent := req.userAgent
    ipAddress := req.ipAddress
    timestamp := now }

/-- The `GET /track/click/:emailId` handler (token-identical in `index.js`
and `part_000`).  `decodeURIComponent` is passed in as an abstract partial
decoding function: `none` models the `URIError` the JS builtin throws on
malformed percent-encoding.  The guard `if (!url)` tests JS falsiness, so
both a missing `url` and the present-but-empty `url` (`?url=` gives
`req.query.url === ''`) take the `400 'Invalid URL'` path before any store
access.  Otherwise the click is recorded (store errors caught), and
`res.redirect(decodeURIComponent(url))` runs after the `try`/`catch`: when
decoding throws, the error escapes the handler and no response is sent
(second component `none`), the completed writes being kept; when it
succeeds, the response is the 302 redirect to the decoded target. -/
def trackClick (decodeURIComponent : Str → Option Str) (now : Nat) (newId : Str)
    (f : ClickFaults) (req : ClickRequest) (s : Store) : Store × Option Response :=
  match req.url with
  | none => (s, some { status := 400, body := ResponseBody.text (str "Invalid URL") })
  | some url =>
    if url.isEmpty then
      (s, some { status := 400, body := ResponseBody.text (str "Invalid URL") })
    else
      let clickData : ClickEvent := clickDataOf now newId req url
      let afterTry : Store :=
        if f.ensureFails then s
        else
          let d : EmailDefaults := { recipientEmail := some req.recipientEmail }
          let s1 := { s with emailTracking :=
            ensureEmailDocument now req.emailId d s.emailTracking }
          if f.insertFails then s1
          else
            let s2 := { s1 with emailClicks := s1.emailClicks ++ [clickData] }
            if f.incFails then s2
            else
              let tracked := updateFirst (fun r => r.id == req.emailId)
                (fun r => { r with
                  clickCount := r.clickCount + 1
                  lastClickedAt := some clickData.timestamp
                  recipientEmail := some req.recipientEmail })
                s2.emailTracking
              { s2 with emailTracking := tracked }
      match decodeURIComponent url with
      | some target =>
        (afterTry,
         some { status := 302
                location := some target
                body := ResponseBody.noBody })
      | none => (afterTry, none)

/-- The denylist named by the specification (§4.1 rule 1 and P2). -/
def specDenylist : List Str :=
  [str "bot", str "crawler", str "spider", str "scraper", str "preview", str "validator",
   str "checker", str "monitor", str "scanner", str "fetcher", str "downloader",
   str "mail", str "client", str "server", str "daemon", str "service"]

/-- `openCount` of the EmailRecord for `emailId`, `0` when absent. -/
def openCountOf (col : List EmailRecord) (emailId : Str) : Nat :=
  match col.find? (fun r => r.id == emailId) with
  | some r => r.openCount
  | none => 0

/-- The OpenEvents of a collection belonging to one `(emailId,
recipientEmail)` pair. -/
def opensFor (col : List OpenEvent) (emailId recipientEmail : Str) : List OpenEvent :=
  col.filter (fun o => o.emailId == emailId && o.recipientEmail == recipientEmail)

/-- The `openData` document built by both open handlers. -/
def openDataOf (now : Nat) (newId : Str) (req : OpenRequest) : OpenEvent :=
  { id := newId
    emailId := req.emailId
    recipientEmail := req.recipientEmail
    userAgent := req.userAgent
    ipAddress := req.ipAddress
    timestamp := now }

/-- The `$inc`/`$set` update applied to the EmailRecord on an accepted open. -/
def incOpenFn (now : Nat) (recipientEmail : Str) (r : EmailRecord) : EmailRecord :=
  { r with
    openCount := r.openCount + 1
    lastOpenedAt := some now
    recipientEmail := some recipientEmail }

/-- The store produced by the accept path shared by both open handlers:
upsert the EmailRecord, append the OpenEvent, increment `openCount`. -/
def acceptedStore (now : Nat) (newId : Str) (req : OpenRequest) (s : Store) : Store :=
  let d : EmailDefaults := { recipientEmail := some req.recipientEmail }
  let tracked := updateFirst (fun r => r.id == req.emailId) (incOpenFn now req.recipientEmail)
    (ensureEmailDocument now req.emailId d s.emailTracking)
  { s with
    emailTracking := tracked
    emailOpens := s.emailOpens ++ [openDataOf now newId req] }

/-- The store after an `index.js` run in which the OpenEvent insert succeeded
but the following `openCount` update raised: the upsert and the insert are
kept, the counter is untouched. -/
def insertedNotCountedStore (now : Nat) (newId : Str) (req : OpenRequest) (s : Store) :
    Store :=
  let d : EmailDefaults := { recipientEmail := some req.recipientEmail }
  { s with
    emailTracking := ensureEmailDocument now req.emailId d s.emailTracking
    emailOpens := s.emailOpens ++ [openDataOf now newId req] }

/-- A realistic browser user agent (no denylist term, length ≥ 10). -/
def exUA : Str := str "Mozilla/5.0 (Macintosh; Intel Mac OS X)"

/-- A request that passes every rejection rule of both handlers. -/
def exReq : OpenRequest :=
  { emailId := str "e1"
    recipientEmail := str "r@x.com"
    userAgent := exUA
    ipAddress := str "203.0.113.7" }

/-- Same request with a user agent containing `mail` (and no `index.js`
denylist term). -/
def exReqMail : OpenRequest := { exReq with userAgent := str "mailservice-agent xx" }

/-- Same request with a cased denylist variant `MaIl` embedded in the agent. -/
def exReqCasedMail : OpenRequest := { exReq with userAgent := str "xyzMaIlxyz99" }

/-- Same request from the IPv4 loopback address. -/
def exReqLoop : OpenRequest := { exReq with ipAddress := str "127.0.0.1" }

/-- A clean long user agent combined with the loopback address. -/
def exReqWinLoop : OpenRequest :=
  { exReq with userAgent := str "Mozilla/5.0 (Windows NT 10.0)", ipAddress := str "127.0.0.1" }

/-- Same request with a 3-character user agent. -/
def exReqShort : OpenRequest := { exReq with userAgent := str "abc" }

/-- The empty store. -/
def exStoreEmpty : Store := { emailTracking := [], emailOpens := [], emailClicks := [] }

/-- An EmailRecord sent long ago (`sentAt = 0`). -/
def exRecOld : EmailRecord :=
  { id := str "e1"
    sentAt := 0
    status := str "sent"
    openCount := 0
    clickCount := 0
    attachmentDownloads := 0
    attachmentOpens := 0 }

/-- A store holding only that old record. -/
def exStoreOld : Store := { emailTracking := [exRecOld], emailOpens := [], emailClicks := [] }

/-- A prior OpenEvent for `(e1, r@x.com)` at `t = 100000`, with no
EmailRecord (such a state is reachable through `POST /api/sync-tracking-data`,
which inserts OpenEvents without touching `email_tracking`). -/
def exEvPrior : OpenEvent :=
  { id := str "p0"
    emailId := str "e1"
    recipientEmail := str "r@x.com"
    userAgent := exUA
    ipAddress := str "203.0.113.7"
    timestamp := 100000 }

/-- A store holding only that prior OpenEvent. -/
def exStorePrior : Store := { emailTracking := [], emailOpens := [exEvPrior], emailClicks := [] }

/-- A click request with an encoded `url` parameter. -/
def exClickReq : ClickRequest :=
  { emailId := str "e1"
    url := some (str "https%3A%2F%2Fx.com")
    recipientEmail := str "r@x.com"
    userAgent := exUA
    ipAddress := str "203.0.113.7" }

/-- The same click request without the `url` parameter. -/
def exClickReqNoUrl : ClickRequest := { exClickReq with url := none }

section Helpers

variable {α : Type} (p : α → Bool) (f : α → α)

theorem updateFirst_of_none (l : List α) (h : l.find? p = none) :
    updateFirst p f l = l := by
  induction l with
  | nil => rfl
  | cons a l ih =>
    cases hpa : p a with
    | true => rw [List.find?_cons_of_pos _ hpa] at h; exact absurd h (by simp)
    | false =>
      rw [List.find?_cons_of_neg _ (by simp [hpa])] at h
      simp [updateFirst, hpa, ih h]

theorem updateFirst_append_of_none (l : List α) (x : α) (h : l.find? p = none) :
    updateFirst p f (l ++ [x]) = l ++ [if p x then f x else x] := by
  induction l with
  | nil => simp only [List.nil_append, updateFirst]; split <;> rfl
  | cons a l ih =>
    cases hpa : p a with
    | true => rw [List.find?_cons_of_pos _ hpa] at h; exact absurd h (by simp)
    | false =>
      rw [List.find?_cons_of_neg _ (by simp [hpa])] at h
      simp [updateFirst, hpa, ih h]

theorem find?_updateFirst_of_found (l : List α) (r : α)
    (h : l.find? p = some r) (hf : p (f r) = true) :
    (updateFirst p f l).find? p = some (f r) := by
  induction l with
  | nil => simp [List.find?] at h
  | cons a l ih =>
    cases hpa : p a with
    | true =>
      rw [List.find?_cons_of_pos _ hpa] at h
      cases h
      simp only [updateFirst, hpa, if_true]
      exact List.find?_cons_of_pos _ hf
    | false =>
      rw [List.find?_cons_of_neg _ (by simp [hpa])] at h
      simp only [updateFirst, hpa, Bool.false_eq_true, if_false]
      rw [List.find?_cons_of_neg _ (by simp [hpa])]
      exact ih h

end Helpers

theorem updateFirst_id (p : α → Bool) (l : List α) :
    updateFirst p (fun x => x) l = l := by
  induction l with
  | nil => rfl
  | cons a l ih => cases hpa : p a <;> simp [updateFirst, hpa, ih]

theorem ensureEmailDocument_found (now : Nat) (emailId : Str) (d : EmailDefaults)
    (col : List EmailRecord) (r : EmailRecord)
    (h : col.find? (fun r => r.id == emailId) = some r) :
    ensureEmailDocument now emailId d col = col := by
  unfold ensureEmailDocument updateOneUpsert
  rw [h]
  simp [updateFirst_id]

theorem ensureEmailDocument_notFound (now : Nat) (emailId : Str) (d : EmailDefaults)
    (col : List EmailRecord)
    (h : col.find? (fun r => r.id == emailId) = none) :
    ensureEmailDocument now emailId d col = col ++ [baseDefaults now emailId d] := by
  unfold ensureEmailDocument updateOneUpsert
  rw [h]
  simp

theorem acceptedStore_emailOpens (now : Nat) (newId : Str) (req : OpenRequest) (s : Store) :
    (acceptedStore now newId req s).emailOpens = s.emailOpens ++ [openDataOf now newId req] :=
  rfl

theorem acceptedStore_emailClicks (now : Nat) (newId : Str) (req : OpenRequest) (s : Store) :
    (acceptedStore now newId req s).emailClicks = s.emailClicks :=
  rfl

theorem acceptedStore_tracking_of_found (now : Nat) (newId : Str) (req : OpenRequest)
    (s : Store) (doc : EmailRecord)
    (h : s.emailTracking.find? (fun r => r.id == req.emailId) = some doc) :
    (acceptedStore now newId req s).emailTracking
      = updateFirst (fun r => r.id == req.emailId) (incOpenFn now req.recipientEmail)
          s.emailTracking := by
  simp [acceptedStore, ensureEmailDocument_found _ _ _ _ _ h]

theorem acceptedStore_tracking_of_none (now : Nat) (newId : Str) (req : OpenRequest)
    (s : Store)
    (h : s.emailTracking.find? (fun r => r.id == req.emailId) = none) :
    (acceptedStore now newId req s).emailTracking
      = s.emailTracking
          ++ [incOpenFn now req.recipientEmail
                (baseDefaults now req.emailId { recipientEmail := some req.recipientEmail })] := by
  have hb : ((baseDefaults now req.emailId
      ({ recipientEmail := some req.recipientEmail } : EmailDefaults)).id == req.emailId) = true := by
    simp [baseDefaults]
  simp only [acceptedStore, ensureEmailDocument_notFound _ _ _ _ h]
  rw [updateFirst_append_of_none _ _ _ _ h, if_pos hb]

theorem find?_acceptedStore_of_found (now : Nat) (newId : Str) (req : OpenRequest)
    (s : Store) (doc : EmailRecord)
    (h : s.emailTracking.find? (fun r => r.id == req.emailId) = some doc) :
    (acceptedStore now newId req s).emailTracking.find? (fun r => r.id == req.emailId)
      = some (incOpenFn now req.recipientEmail doc) := by
  have hid : ((incOpenFn now req.recipientEmail doc).id == req.emailId) = true := by
    have := List.find?_some h
    simpa [incOpenFn] using this
  rw [acceptedStore_tracking_of_found _ _ _ _ _ h]
  exact find?_updateFirst_of_found _ _ _ _ h hid

theorem find?_acceptedStore_of_none (now : Nat) (newId : Str) (req : OpenRequest)
    (s : Store)
    (h : s.emailTracking.find? (fun r => r.id == req.emailId) = none) :
    (acceptedStore now newId req s).emailTracking.find? (fun r => r.id == req.emailId)
      = some (incOpenFn now req.recipientEmail
          (baseDefaults now req.emailId { recipientEmail := some req.recipientEmail })) := by
  rw [acceptedStore_tracking_of_none _ _ _ _ h, List.find?_append, h]
  simp [incOpenFn, baseDefaults]

theorem openCountOf_updateFirst_inc (col : List EmailRecord) (e rc : Str) (now : Nat)
    (doc : EmailRecord) (h : col.find? (fun r => r.id == e) = some doc) :
    openCountOf (updateFirst (fun r => r.id == e) (incOpenFn now rc) col) e
      = openCountOf col e + 1 := by
  have hid : ((incOpenFn now rc doc).id == e) = true := by
    have := List.find?_some h
    simpa [incOpenFn] using this
  unfold openCountOf
  rw [h, find?_updateFirst_of_found _ _ _ _ h hid]
  simp [incOpenFn]

theorem openCountOf_acceptedStore (now : Nat) (newId : Str) (req : OpenRequest) (s : Store) :
    openCountOf (acceptedStore now newId req s).emailTracking req.emailId
      = openCountOf s.emailTracking req.emailId + 1 := by
  cases h : s.emailTracking.find? (fun r => r.id == req.emailId) with
  | some doc =>
    rw [acceptedStore_tracking_of_found _ _ _ _ _ h]
    exact openCountOf_updateFirst_inc _ _ _ _ _ h
  | none =>
    unfold openCountOf
    rw [find?_acceptedStore_of_none _ _ _ _ h, h]
    simp [incOpenFn, baseDefaults]

theorem find?_acceptedStore (now : Nat) (newId : Str) (req : OpenRequest) (s : Store) :
    ∃ x, (acceptedStore now newId req s).emailTracking.find? (fun r => r.id == req.emailId)
      = some x := by
  cases h : s.emailTracking.find? (fun r => r.id == req.emailId) with
  | some doc => exact ⟨_, find?_acceptedStore_of_found _ _ _ _ _ h⟩
  | none => exact ⟨_, find?_acceptedStore_of_none _ _ _ _ h⟩

theorem openCountOf_ensure (now : Nat) (e : Str) (d : EmailDefaults)
    (col : List EmailRecord) (e' : Str) (hd : d.openCount = none) :
    openCountOf (ensureEmailDocument now e d col) e' = openCountOf col e' := by
  cases h : col.find? (fun r => r.id == e) with
  | some doc => rw [ensureEmailDocument_found _ _ _ _ _ h]
  | none =>
    rw [ensureEmailDocument_notFound _ _ _ _ h]
    unfold openCountOf
    rw [List.find?_append]
    cases h' : col.find? (fun r => r.id == e') with
    | some doc => simp
    | none =>
      simp only [baseDefaults] at *
      by_cases hc : d.id.getD e = e' <;> simp [List.find?_singleton, hd, hc]

theorem opensFor_append (col l : List OpenEvent) (e rc : Str) :
    opensFor (col ++ l) e rc = opensFor col e rc ++ opensFor l e rc := by
  simp [opensFor]

namespace Part000

theorem trackOpen_reject_automated (now : Nat) (newId : Str) (f : Faults)
    (req : OpenRequest) (s : Store)
    (hA : isAutomatedRequest req.userAgent req.ipAddress = true) :
    trackOpen now newId f req s = (s, pixelResponse) := by
  simp [trackOpen, hA, pixelResponse]

theorem trackOpen_reject_sendtime (now : Nat) (newId : Str) (f : Faults)
    (req : OpenRequest) (s : Store) (doc : EmailRecord)
    (hA : isAutomatedRequest req.userAgent req.ipAddress = false)
    (hS : f.sendFindFails = false)
    (hFind : s.emailTracking.find? (fun r => r.id == req.emailId) = some doc)
    (hT : now - doc.sentAt < 5000) :
    trackOpen now newId f req s = (s, pixelResponse) := by
  simp [trackOpen, hA, hS, hFind, hT, pixelResponse]

theorem trackOpen_accept_noRecord (now : Nat) (newId : Str) (f : Faults)
    (req : OpenRequest) (s : Store)
    (hA : isAutomatedRequest req.userAgent req.ipAddress = false)
    (hFind : s.emailTracking.find? (fun r => r.id == req.emailId) = none)
    (hE : f.ensureFails = false) (hI : f.insertFails = false) (hC : f.incFails = false) :
    trackOpen now newId f req s = (acceptedStore now newId req s, pixelResponse) := by
  cases hS : f.sendFindFails <;>
    (simp [trackOpen, hA, hS, hFind, hE, hI, hC, acceptedStore, openDataOf, pixelResponse];
      rfl)

theorem trackOpen_accept_oldRecord (now : Nat) (newId : Str) (f : Faults)
    (req : OpenRequest) (s : Store) (doc : EmailRecord)
    (hA : isAutomatedRequest req.userAgent req.ipAddress = false)
    (hS : f.sendFindFails = false)
    (hFind : s.emailTracking.find? (fun r => r.id == req.emailId) = some doc)
    (hT : 5000 ≤ now - doc.sentAt)
    (hE : f.ensureFails = false) (hI : f.insertFails = false) (hC : f.incFails = false) :
    trackOpen now newId f req s = (acceptedStore now newId req s, pixelResponse) := by
  simp [trackOpen, hA, hS, hFind, Nat.not_lt.mpr hT, hE, hI, hC, acceptedStore, openDataOf,
    pixelResponse]
  rfl

theorem trackOpen_accept_sendFindFails (now : Nat) (newId : Str) (f : Faults)
    (req : OpenRequest) (s : Store)
    (hA : isAutomatedRequest req.userAgent req.ipAddress = false)
    (hS : f.sendFindFails = true)
    (hE : f.ensureFails = false) (hI : f.insertFails = false) (hC : f.incFails = false) :
    trackOpen now newId f req s = (acceptedStore now newId req s, pixelResponse) := by
  simp [trackOpen, hA, hS, hE, hI, hC, acceptedStore, openDataOf, pixelResponse]
  rfl

end Part000

namespace IndexJs

theorem trackOpen_reject_suspicious (now : Nat) (newId : Str) (f : Faults)
    (req : OpenRequest) (s : Store)
    (hA : isSuspicious req.userAgent = true) :
    trackOpen now newId f req s = (s, pixelResponse) := by
  simp [trackOpen, hA, pixelResponse]

theorem trackOpen_dedup_skip (now : Nat) (newId : Str) (f : Faults)
    (req : OpenRequest) (s : Store) (ev : OpenEvent)
    (hA : isSuspicious req.userAgent = false)
    (hE : f.ensureFails = false) (hD : f.dedupFindFails = false)
    (hFound : s.emailOpens.find? (fun o => recentPred now req o) = some ev) :
    trackOpen now newId f req s = (dedupSkippedStore now req s, pixelResponse) := by
  simp only [recentPred, Nat.sub_le_iff_le_add] at hFound
  simp [trackOpen, hA, hE, hD, hFound, dedupSkippedStore, pixelResponse]

theorem trackOpen_accept (now : Nat) (newId : Str) (f : Faults)
    (req : OpenRequest) (s : Store)
    (hA : isSuspicious req.userAgent = false)
    (hE : f.ensureFails = false) (hD : f.dedupFindFails = false)
    (hI : f.insertFails = false) (hC : f.incFails = false)
    (hNone : s.emailOpens.find? (fun o => recentPred now req o) = none) :
    trackOpen now newId f req s = (acceptedStore now newId req s, pixelResponse) := by
  simp only [recentPred, Nat.sub_le_iff_le_add] at hNone
  simp [trackOpen, hA, hE, hD, hI, hC, hNone, acceptedStore, openDataOf, pixelResponse]
  rfl

theorem trackOpen_incFails (now : Nat) (newId : Str) (req : OpenRequest) (s : Store)
    (hA : isSuspicious req.userAgent = false)
    (hNone : s.emailOpens.find? (fun o => recentPred now req o) = none) :
    trackOpen now newId { incFails := true } req s
      = (insertedNotCountedStore now newId req s, pixelResponse) := by
  simp only [recentPred, Nat.sub_le_iff_le_add] at hNone
  simp [trackOpen, hA, hNone, insertedNotCountedStore, openDataOf, pixelResponse]

theorem dedupSkippedStore_emailOpens (now : Nat) (req : OpenRequest) (s : Store) :
    (dedupSkippedStore now req s).emailOpens = s.emailOpens :=
  rfl

theorem dedupSkippedStore_openCountOf (now : Nat) (req : OpenRequest) (s : Store) (e : Str) :
    openCountOf (dedupSkippedStore now req s).emailTracking e
      = openCountOf s.emailTracking e :=
  openCountOf_ensure _ _ _ _ _ rfl

theorem find?_recentPred_none (now : Nat) (req : OpenRequest) (col : List OpenEvent)
    (h : ∀ o ∈ col, ¬(o.emailId = req.emailId ∧ o.recipientEmail = req.recipientEmail)) :
    col.find? (fun o => recentPred now req o) = none := by
  refine List.find?_eq_none.mpr (fun o ho hp => ?_)
  simp only [recentPred, Bool.and_eq_true, beq_iff_eq, decide_eq_true_eq] at hp
  exact h o ho ⟨hp.1.1, hp.1.2⟩

end IndexJs

/-- C4 (amended): every `part_000` open-tracking request whose `ipAddress` is
`127.0.0.1`, `::1`, or the literal `localhost` is rejected — the store is
left unchanged and the pixel is served — regardless of the user agent.
(The `index.js` handler never inspects `ipAddress`; see the
counterexample.) -/
theorem C4_loopback_rejection :
    ∀ (now : Nat) (newId : Str) (f : Part000.Faults) (req : OpenRequest) (s : Store),
      (req.ipAddress = str "127.0.0.1" ∨ req.ipAddress = str "::1"
        ∨ req.ipAddress = str "localhost") →
      Part000.trackOpen now newId f req s = (s, pixelResponse) := by
  intro now newId f req s h
  apply Part000.trackOpen_reject_automated
  unfold Part000.isAutomatedRequest
  rcases h with h | h | h <;> simp [h]

/-- C4 witness: the loopback request is rejected by the `part_000` handler
with no store change, even with a realistic browser user agent. -/
theorem C4_loopback_rejection_witness :
    Part000.trackOpen 60000 (str "id1") {} exReqLoop exStoreEmpty
      = (exStoreEmpty, pixelResponse) :=
  C4_loopback_rejection 60000 (str "id1") {} exReqLoop exStoreEmpty (Or.inl rfl)

/-- C4 counterexample: the `index.js` handler accepts a request from
`127.0.0.1` carrying a normal browser user agent — an OpenEvent is stored and
`openCount` is incremented, contradicting the claim that loopback requests
are always rejected. -/
theorem C4_counterexample :
    exReqLoop.ipAddress = str "127.0.0.1" ∧
    (IndexJs.trackOpen 60000 (str "id1") {} exReqLoop exStoreEmpty).1.emailOpens
      = [openDataOf 60000 (str "id1") exReqLoop] ∧
    openCountOf
      (IndexJs.trackOpen 60000 (str "id1") {} exReqLoop exStoreEmpty).1.emailTracking
      (str "e1") = 1 := by
  decide

/-- C7: the HTTP response of `GET /track/open/:emailId` is the same fixed
value on every path of both handlers — any classification outcome, any store
contents, any store faults — namely `200 OK`, `image/gif`, the 42-byte
transparent GIF, and the cache-disabling headers; so the accept/reject
decision is not observable to the requester. -/
theorem C7_response_indistinguishable :
    (∀ (now : Nat) (newId : Str) (f : IndexJs.Faults) (req : OpenRequest) (s : Store),
        (IndexJs.trackOpen now newId f req s).2 = pixelResponse) ∧
    (∀ (now : Nat) (newId : Str) (f : Part000.Faults) (req : OpenRequest) (s : Store),
        (Part000.trackOpen now newId f req s).2 = pixelResponse) ∧
    pixelResponse.status = 200 ∧
    pixelResponse.contentType = some (str "image/gif") ∧
    pixelResponse.contentLength = some 42 ∧
    pixelResponse.cacheControl = some (str "no-cache, no-store, must-revalidate") ∧
    pixelResponse.pragma = some (str "no-cache") ∧
    pixelResponse.expires = some (str "0") ∧
    pixelResponse.body = ResponseBody.bytes transparentGif ∧
    transparentGif.length = 42 := by
  refine ⟨?_, ?_, rfl, rfl, by decide, rfl, rfl, rfl, rfl, by decide⟩
  · intro now newId f req s
    simp only [IndexJs.trackOpen]
    repeat' split
    all_goals rfl
  · intro now newId f req s
    simp only [Part000.trackOpen]
    repeat' split
    all_goals rfl

/-- C9: `ensureEmailDocument` upserts on first sight — when no record with
the given id exists one is created from `baseDefaults` (seeded with
`sentAt = now`, status `sent`, all four counters zero, each field overridden
by a present field of `defaults`); when a record exists, the
`$setOnInsert`-only update leaves it (and the whole collection) unchanged. -/
theorem C9_ensure_upsert :
    (∀ (now : Nat) (emailId : Str) (d : EmailDefaults) (col : List EmailRecord)
        (doc : EmailRecord), col.find? (fun r => r.id == emailId) = some doc →
        ensureEmailDocument now emailId d col = col) ∧
    (∀ (now : Nat) (emailId : Str) (d : EmailDefaults) (col : List EmailRecord),
        col.find? (fun r => r.id == emailId) = none →
        ensureEmailDocument now emailId d col = col ++ [baseDefaults now emailId d]) ∧
    (∀ (now : Nat) (emailId rc : Str),
        baseDefaults now emailId { recipientEmail := some rc }
          = { id := emailId
              sentAt := now
              status := str "sent"
              openCount := 0
              clickCount := 0
              attachmentDownloads := 0
              attachmentOpens := 0
              lastOpenedAt := none
              lastClickedAt := none
              recipientEmail := some rc }) ∧
    (∀ (now : Nat) (emailId : Str) (d : EmailDefaults) (v : Nat), d.sentAt = some v →
        (baseDefaults now emailId d).sentAt = v) ∧
    (∀ (now : Nat) (emailId : Str) (d : EmailDefaults) (v : Nat), d.openCount = some v →
        (baseDefaults now emailId d).openCount = v) := by
  refine ⟨ensureEmailDocument_found, ensureEmailDocument_notFound,
    fun now e rc => rfl, fun now e d v hv => ?_, fun now e d v hv => ?_⟩ <;>
    simp [baseDefaults, hv]

/-- C9 witness: with the old record present the collection is unchanged; with
a fresh id the record is created; a provided `sentAt` default overrides the
seeded one. -/
theorem C9_ensure_upsert_witness :
    ensureEmailDocument 5 (str "e1") { recipientEmail := some (str "r@x.com") } [exRecOld]
      = [exRecOld] ∧
    ensureEmailDocument 5 (str "e2") { recipientEmail := some (str "r@x.com") } [exRecOld]
      = [exRecOld]
        ++ [baseDefaults 5 (str "e2") { recipientEmail := some (str "r@x.com") }] ∧
    (baseDefaults 7 (str "e3") { sentAt := some 3 }).sentAt = 3 :=
  ⟨C9_ensure_upsert.1 5 (str "e1") { recipientEmail := some (str "r@x.com") }
      [exRecOld] exRecOld (by decide),
   C9_ensure_upsert.2.1 5 (str "e2") { recipientEmail := some (str "r@x.com") }
      [exRecOld] (by decide),
   C9_ensure_upsert.2.2.2.1 7 (str "e3") { sentAt := some 3 } 3 rfl⟩

/-- C10 (amended): the click handler replies `400 'Invalid URL'` with no
store access when the `url` query parameter is absent — and likewise, by the
JS falsy guard, when it is present but empty; when `url` is present and
non-empty, if `decodeURIComponent(url)` evaluates without throwing the
response is a 302 redirect to its result for every `url` (no validation of
the target) and for every fault configuration (the redirect is issued even
when the store writes recording the click fail); if decoding throws, the
error escapes after the writes — the click is still recorded but no redirect
(or any response) is issued. -/
theorem C10_click_edge_cases :
    (∀ (dec : Str → Option Str) (now : Nat) (newId : Str) (f : ClickFaults)
        (req : ClickRequest) (s : Store), req.url = none →
        trackClick dec now newId f req s
          = (s, some { status := 400, body := ResponseBody.text (str "Invalid URL") })) ∧
    (∀ (dec : Str → Option Str) (now : Nat) (newId : Str) (f : ClickFaults)
        (req : ClickRequest) (s : Store), req.url = some [] →
        trackClick dec now newId f req s
          = (s, some { status := 400, body := ResponseBody.text (str "Invalid URL") })) ∧
    (∀ (dec : Str → Option Str) (now : Nat) (newId : Str) (f : ClickFaults)
        (req : ClickRequest) (s : Store) (u target : Str), req.url = some u → u ≠ [] →
        dec u = some target →
        (trackClick dec now newId f req s).2
          = some { status := 302, location := some target, body := ResponseBody.noBody }) ∧
    (∀ (dec : Str → Option Str) (now : Nat) (newId : Str)
        (req : ClickRequest) (s : Store) (u : Str), req.url = some u → u ≠ [] →
        dec u = none →
        (trackClick dec now newId {} req s).2 = none ∧
        (trackClick dec now newId {} req s).1.emailClicks
          = s.emailClicks ++ [clickDataOf now newId req u]) := by
  refine ⟨?_, ?_, ?_, ?_⟩
  · intro dec now newId f req s h
    simp [trackClick, h]
  · intro dec now newId f req s h
    simp [trackClick, h]
  · intro dec now newId f req s u target h hne hdec
    cases u with
    | nil => exact absurd rfl hne
    | cons a t => simp [trackClick, h, hdec]
  · intro dec now newId req s u h hne hdec
    cases u with
    | nil => exact absurd rfl hne
    | cons a t => exact ⟨by simp [trackClick, h, hdec], by simp [trackClick, h, hdec]⟩

/-- C2 (amended): every request whose user agent contains any casing variant
of any substring of the spec's denylist is rejected by the `part_000`
handler with no store change; the `index.js` handler enforces the same
property only for its own denylist (`bot`, `crawler`, `spider`, `scanner`,
`checker`, `monitor`, `preview`, `prefetch`, `security`, `antivirus`,
`firewall`), which omits `scraper`, `validator`, `fetcher`, `downloader`,
`mail`, `client`, `server`, `daemon` and `service` — see the
counterexample. -/
theorem C2_denylist_case_insensitive :
    (∀ t ∈ specDenylist, ∀ (v : Str) (now : Nat) (newId : Str) (f : Part000.Faults)
        (req : OpenRequest) (s : Store),
        v.map Char.toLower = t → v <:+: req.userAgent →
        Part000.trackOpen now newId f req s = (s, pixelResponse)) ∧
    (∀ t ∈ IndexJs.suspiciousUserAgents, ∀ (v : Str) (now : Nat) (newId : Str)
        (f : IndexJs.Faults) (req : OpenRequest) (s : Store),
        v.map Char.toLower = t → v <:+: req.userAgent →
        IndexJs.trackOpen now newId f req s = (s, pixelResponse)) := by
  have hsub : ∀ x ∈ specDenylist, x ∈ Part000.automatedAgents := by decide
  constructor
  · intro t ht v now newId f req s hv hinf
    have htl : t <:+: req.userAgent.map Char.toLower := by
      have h := hinf.map Char.toLower
      rwa [hv] at h
    apply Part000.trackOpen_reject_automated
    have hany : Part000.automatedAgents.any
        (fun a => decide (a <:+: req.userAgent.map Char.toLower)) = true :=
      List.any_eq_true.mpr ⟨t, hsub t ht, by simpa using htl⟩
    unfold Part000.isAutomatedRequest
    simp [hany]
  · intro t ht v now newId f req s hv hinf
    have htl : t <:+: req.userAgent.map Char.toLower := by
      have h := hinf.map Char.toLower
      rwa [hv] at h
    apply IndexJs.trackOpen_reject_suspicious
    unfold IndexJs.isSuspicious
    exact List.any_eq_true.mpr ⟨t, ht, by simpa using htl⟩

/-- C2 witness: the cased variant `MaIl` of denylist entry `mail` is rejected
by `part_000`, and the cased variant `BoT` of `bot` by `index.js`, both with
the store unchanged. -/
theorem C2_denylist_case_insensitive_witness :
    Part000.trackOpen 60000 (str "id1") {} exReqCasedMail exStoreEmpty
      = (exStoreEmpty, pixelResponse) ∧
    IndexJs.trackOpen 60000 (str "id1") {} { exReq with userAgent := str "xyzBoTxyz" }
      exStoreEmpty = (exStoreEmpty, pixelResponse) :=
  ⟨C2_denylist_case_insensitive.1 (str "mail") (by decide) (str "MaIl") 60000 (str "id1")
     {} exReqCasedMail exStoreEmpty (by decide) (by decide),
   C2_denylist_case_insensitive.2 (str "bot") (by decide) (str "BoT") 60000 (str "id1")
     {} { exReq with userAgent := str "xyzBoTxyz" } exStoreEmpty (by decide) (by decide)⟩

/-- C2 counterexample: `mail` is in the spec's denylist and occurs verbatim in
the user agent `mailservice-agent xx`, yet the `index.js` handler stores an
OpenEvent and increments `openCount` for that request — the denylist claim
fails on `index.js`. -/
theorem C2_counterexample :
    str "mail" ∈ specDenylist ∧
    str "mail" <:+: exReqMail.userAgent ∧
    (IndexJs.trackOpen 60000 (str "id1") {} exReqMail exStoreEmpty).1.emailOpens
      = [openDataOf 60000 (str "id1") exReqMail] ∧
    openCountOf
      (IndexJs.trackOpen 60000 (str "id1") {} exReqMail exStoreEmpty).1.emailTracking
      (str "e1") = 1 := by
  decide

/-- C3 (amended): only the `part_000` handler implements the send-time rule,
with a 5000 ms threshold: a request arriving 1000 ms after `sentAt` is
rejected with no store change; one arriving 10000 ms after `sentAt` (no other
rule firing, no faults) is accepted; and an `emailId` with no EmailRecord
passes through — the request is accepted and the record is created with
`sentAt = now` and `openCount = 1` as part of acceptance.  (The `index.js`
handler has no send-time rule — see the counterexample.) -/
theorem C3_send_time_proximity :
    (∀ (T : Nat) (newId : Str) (f : Part000.Faults) (req : OpenRequest) (s : Store)
        (doc : EmailRecord),
        Part000.isAutomatedRequest req.userAgent req.ipAddress = false →
        f.sendFindFails = false →
        s.emailTracking.find? (fun r => r.id == req.emailId) = some doc →
        doc.sentAt = T →
        Part000.trackOpen (T + 1000) newId f req s = (s, pixelResponse)) ∧
    (∀ (T : Nat) (newId : Str) (req : OpenRequest) (s : Store) (doc : EmailRecord),
        Part000.isAutomatedRequest req.userAgent req.ipAddress = false →
        s.emailTracking.find? (fun r => r.id == req.emailId) = some doc →
        doc.sentAt = T →
        Part000.trackOpen (T + 10000) newId {} req s
          = (acceptedStore (T + 10000) newId req s, pixelResponse)) ∧
    (∀ (now : Nat) (newId : Str) (req : OpenRequest) (s : Store),
        Part000.isAutomatedRequest req.userAgent req.ipAddress = false →
        s.emailTracking.find? (fun r => r.id == req.emailId) = none →
        Part000.trackOpen now newId {} req s
            = (acceptedStore now newId req s, pixelResponse) ∧
        (acceptedStore now newId req s).emailOpens
            = s.emailOpens ++ [openDataOf now newId req] ∧
        (acceptedStore now newId req s).emailTracking.find? (fun r => r.id == req.emailId)
            = some (incOpenFn now req.recipientEmail
                (baseDefaults now req.emailId { recipientEmail := some req.recipientEmail })) ∧
        (incOpenFn now req.recipientEmail
            (baseDefaults now req.emailId
              { recipientEmail := some req.recipientEmail })).sentAt = now ∧
        (incOpenFn now req.recipientEmail
            (baseDefaults now req.emailId
              { recipientEmail := some req.recipientEmail })).openCount = 1) := by
  refine ⟨?_, ?_, ?_⟩
  · intro T newId f req s doc hA hS hFind hT
    exact Part000.trackOpen_reject_sendtime _ _ _ _ _ _ hA hS hFind (by omega)
  · intro T newId req s doc hA hFind hT
    exact Part000.trackOpen_accept_oldRecord _ _ _ _ _ _ hA rfl hFind (by omega) rfl rfl rfl
  · intro now newId req s hA hFind
    exact ⟨Part000.trackOpen_accept_noRecord _ _ _ _ _ hA hFind rfl rfl rfl,
      acceptedStore_emailOpens _ _ _ _, find?_acceptedStore_of_none _ _ _ _ hFind, rfl, rfl⟩

/-- C3 witness: against the old record (`sentAt = 0`) `part_000` rejects at
`t = 1000` and accepts at `t = 10000`; with an empty store the pass-through
case accepts and creates the record. -/
theorem C3_send_time_proximity_witness :
    Part000.trackOpen 1000 (str "id1") {} exReq exStoreOld = (exStoreOld, pixelResponse) ∧
    Part000.trackOpen 10000 (str "id1") {} exReq exStoreOld
      = (acceptedStore 10000 (str "id1") exReq exStoreOld, pixelResponse) ∧
    Part000.trackOpen 60000 (str "id1") {} exReq exStoreEmpty
      = (acceptedStore 60000 (str "id1") exReq exStoreEmpty, pixelResponse) :=
  ⟨C3_send_time_proximity.1 0 (str "id1") {} exReq exStoreOld exRecOld (by decide) rfl
     (by decide) rfl,
   C3_send_time_proximity.2.1 0 (str "id1") exReq exStoreOld exRecOld (by decide)
     (by decide) rfl,
   (C3_send_time_proximity.2.2 60000 (str "id1") exReq exStoreEmpty (by decide) rfl).1⟩

/-- C3 counterexample: the `index.js` handler accepts a clean request arriving
1000 ms after the record's `sentAt` (here `sentAt = 0`, request at
`t = 1000`) — an OpenEvent is stored and the counter incremented, so the
claim that a request at `T + 1s` is rejected fails on `index.js`. -/
theorem C3_counterexample :
    exRecOld.sentAt = 0 ∧
    (IndexJs.trackOpen 1000 (str "id1") {} exReq exStoreOld).1.emailOpens
      = [openDataOf 1000 (str "id1") exReq] ∧
    openCountOf
      (IndexJs.trackOpen 1000 (str "id1") {} exReq exStoreOld).1.emailTracking
      (str "e1") = 1 := by
  decide

/-- C10 witness: a url-less request and an empty-url request both get the 400
with the store untouched; a request with a decodable url gets the 302
redirect even with all three click writes failing; and with a decoder that
throws on the given url, no response is issued while the click is still
recorded. -/
theorem C10_click_edge_cases_witness :
    trackClick (fun u => some u) 1000 (str "c1") {} exClickReqNoUrl exStoreEmpty
      = (exStoreEmpty,
         some { status := 400, body := ResponseBody.text (str "Invalid URL") }) ∧
    trackClick (fun u => some u) 1000 (str "c1") {} { exClickReq with url := some [] }
        exStoreEmpty
      = (exStoreEmpty,
         some { status := 400, body := ResponseBody.text (str "Invalid URL") }) ∧
    (trackClick (fun u => some u) 1000 (str "c1")
        { ensureFails := true, insertFails := true, incFails := true }
        exClickReq exStoreEmpty).2
      = some { status := 302
               location := some (str "https%3A%2F%2Fx.com")
               body := ResponseBody.noBody } ∧
    (trackClick (fun _ => none) 1000 (str "c1") {} exClickReq exStoreEmpty).2 = none ∧
    (trackClick (fun _ => none) 1000 (str "c1") {} exClickReq exStoreEmpty).1.emailClicks
      = exStoreEmpty.emailClicks
          ++ [clickDataOf 1000 (str "c1") exClickReq (str "https%3A%2F%2Fx.com")] :=
  ⟨C10_click_edge_cases.1 (fun u => some u) 1000 (str "c1") {} exClickReqNoUrl
     exStoreEmpty rfl,
   C10_click_edge_cases.2.1 (fun u => some u) 1000 (str "c1") {}
     { exClickReq with url := some [] } exStoreEmpty rfl,
   C10_click_edge_cases.2.2.1 (fun u => some u) 1000 (str "c1")
     { ensureFails := true, insertFails := true, incFails := true }
     exClickReq exStoreEmpty (str "https%3A%2F%2Fx.com") (str "https%3A%2F%2Fx.com")
     rfl (by decide) rfl,
   (C10_click_edge_cases.2.2.2 (fun _ => none) 1000 (str "c1") exClickReq exStoreEmpty
     (str "https%3A%2F%2Fx.com") rfl (by decide) rfl).1,
   (C10_click_edge_cases.2.2.2 (fun _ => none) 1000 (str "c1") exClickReq exStoreEmpty
     (str "https%3A%2F%2Fx.com") rfl (by decide) rfl).2⟩

/-- C10 counterexample: with the `url` parameter present but equal to the
empty string (the query `?url=`), the source's falsy guard `if (!url)`
returns `400 'Invalid URL'` and performs no store write — not a redirect —
even for a decoder that succeeds on every input, so the claim's 'if url is
present, the response is a redirect to decodeURIComponent(url)' is false at
this input.  (With a url whose decoding throws, `URIError` escapes and no
redirect is issued either, as the last conjunct shows.) -/
theorem C10_counterexample :
    ({ exClickReq with url := some [] } : ClickRequest).url = some (str "") ∧
    trackClick (fun u => some u) 1000 (str "c1") {} { exClickReq with url := some [] }
        exStoreEmpty
      = (exStoreEmpty,
         some { status := 400, body := ResponseBody.text (str "Invalid URL") }) ∧
    (trackClick (fun _ => none) 1000 (str "c1") {} exClickReq exStoreEmpty).2 = none := by
  decide

/-- C1 (amended): duplicate suppression exists only in the `index.js`
handler, whose window is 30000 ms: two otherwise-accepted requests for the
same `(emailId, recipientEmail)` pair (differing only in arrival time and
generated event id) arriving less than 30 s apart store exactly one OpenEvent
and increment `openCount` exactly once, while more than 30 s apart they store
two and increment twice.  The `part_000` handler performs no duplicate
suppression: two accepted requests for the same pair always store two
OpenEvents and increment twice, whatever the gap (see the counterexample,
which follows the spec's own E2E scenario D). -/
theorem C1_recent_duplicate_suppression :
    (∀ (t1 t2 : Nat) (id1 id2 : Str) (req : OpenRequest) (s0 : Store),
        IndexJs.isSuspicious req.userAgent = false →
        (∀ o ∈ s0.emailOpens,
          ¬(o.emailId = req.emailId ∧ o.recipientEmail = req.recipientEmail)) →
        t1 ≤ t2 →
        ((t2 - t1 < 30000 →
          (IndexJs.trackOpen t2 id2 {} req
              (IndexJs.trackOpen t1 id1 {} req s0).1).1.emailOpens
              = s0.emailOpens ++ [openDataOf t1 id1 req] ∧
          openCountOf (IndexJs.trackOpen t2 id2 {} req
              (IndexJs.trackOpen t1 id1 {} req s0).1).1.emailTracking req.emailId
              = openCountOf s0.emailTracking req.emailId + 1) ∧
         (30000 < t2 - t1 →
          (IndexJs.trackOpen t2 id2 {} req
              (IndexJs.trackOpen t1 id1 {} req s0).1).1.emailOpens
              = s0.emailOpens ++ [openDataOf t1 id1 req, openDataOf t2 id2 req] ∧
          openCountOf (IndexJs.trackOpen t2 id2 {} req
              (IndexJs.trackOpen t1 id1 {} req s0).1).1.emailTracking req.emailId
              = openCountOf s0.emailTracking req.emailId + 2))) ∧
    (∀ (t1 t2 : Nat) (id1 id2 : Str) (req : OpenRequest) (s0 : Store) (doc : EmailRecord),
        Part000.isAutomatedRequest req.userAgent req.ipAddress = false →
        s0.emailTracking.find? (fun r => r.id == req.emailId) = some doc →
        5000 ≤ t1 - doc.sentAt →
        5000 ≤ t2 - doc.sentAt →
        (Part000.trackOpen t2 id2 {} req
            (Part000.trackOpen t1 id1 {} req s0).1).1.emailOpens
            = s0.emailOpens ++ [openDataOf t1 id1 req, openDataOf t2 id2 req] ∧
        openCountOf (Part000.trackOpen t2 id2 {} req
            (Part000.trackOpen t1 id1 {} req s0).1).1.emailTracking req.emailId
            = openCountOf s0.emailTracking req.emailId + 2) := by
  constructor
  · intro t1 t2 id1 id2 req s0 hS hNo hle
    have hNone1 : s0.emailOpens.find? (fun o => IndexJs.recentPred t1 req o) = none :=
      IndexJs.find?_recentPred_none t1 req s0.emailOpens hNo
    have hRun1 : IndexJs.trackOpen t1 id1 {} req s0
        = (acceptedStore t1 id1 req s0, pixelResponse) :=
      IndexJs.trackOpen_accept t1 id1 {} req s0 hS rfl rfl rfl rfl hNone1
    simp only [hRun1]
    constructor
    · intro hlt
      have hpred : IndexJs.recentPred t2 req (openDataOf t1 id1 req) = true := by
        simp only [IndexJs.recentPred, openDataOf, beq_self_eq_true, Bool.true_and,
          decide_eq_true_eq]
        omega
      have hFound : (acceptedStore t1 id1 req s0).emailOpens.find?
          (fun o => IndexJs.recentPred t2 req o) = some (openDataOf t1 id1 req) := by
        rw [acceptedStore_emailOpens, List.find?_append,
          IndexJs.find?_recentPred_none t2 req s0.emailOpens hNo]
        simp [List.find?_singleton, hpred]
      have hRun2 := IndexJs.trackOpen_dedup_skip t2 id2 {} req
        (acceptedStore t1 id1 req s0) (openDataOf t1 id1 req) hS rfl rfl hFound
      simp only [hRun2]
      constructor
      · rw [IndexJs.dedupSkippedStore_emailOpens, acceptedStore_emailOpens]
      · rw [IndexJs.dedupSkippedStore_openCountOf]
        exact openCountOf_acceptedStore t1 id1 req s0
    · intro hgt
      have hpred : IndexJs.recentPred t2 req (openDataOf t1 id1 req) = false := by
        simp only [IndexJs.recentPred, openDataOf, beq_self_eq_true, Bool.true_and,
          decide_eq_false_iff_not]
        omega
      have hNone2 : (acceptedStore t1 id1 req s0).emailOpens.find?
          (fun o => IndexJs.recentPred t2 req o) = none := by
        rw [acceptedStore_emailOpens, List.find?_append,
          IndexJs.find?_recentPred_none t2 req s0.emailOpens hNo]
        simp [List.find?_singleton, hpred]
      have hRun2 := IndexJs.trackOpen_accept t2 id2 {} req
        (acceptedStore t1 id1 req s0) hS rfl rfl rfl rfl hNone2
      simp only [hRun2]
      constructor
      · rw [acceptedStore_emailOpens, acceptedStore_emailOpens]
        simp
      · rw [openCountOf_acceptedStore, openCountOf_acceptedStore]
  · intro t1 t2 id1 id2 req s0 doc hA hFind h1 h2
    have hRun1 : Part000.trackOpen t1 id1 {} req s0
        = (acceptedStore t1 id1 req s0, pixelResponse) :=
      Part000.trackOpen_accept_oldRecord t1 id1 {} req s0 doc hA rfl hFind h1 rfl rfl rfl
    simp only [hRun1]
    have hFind2 : (acceptedStore t1 id1 req s0).emailTracking.find?
        (fun r => r.id == req.emailId) = some (incOpenFn t1 req.recipientEmail doc) :=
      find?_acceptedStore_of_found t1 id1 req s0 doc hFind
    have hRun2 : Part000.trackOpen t2 id2 {} req (acceptedStore t1 id1 req s0)
        = (acceptedStore t2 id2 req (acceptedStore t1 id1 req s0), pixelResponse) :=
      Part000.trackOpen_accept_oldRecord t2 id2 {} req (acceptedStore t1 id1 req s0)
        (incOpenFn t1 req.recipientEmail doc) hA rfl hFind2 h2 rfl rfl rfl
    simp only [hRun2]
    constructor
    · rw [acceptedStore_emailOpens, acceptedStore_emailOpens]
      simp
    · rw [openCountOf_acceptedStore, openCountOf_acceptedStore]

/-- C1 witness: on an empty store, `index.js` suppresses a second request
1000 ms after the first (one event, one increment) and records a second
request 35000 ms after the first (two events, two increments); `part_000`,
against the old record, stores both events of two requests 1000 ms apart. -/
theorem C1_recent_duplicate_suppression_witness :
    ((IndexJs.trackOpen 61000 (str "id2") {} exReq
        (IndexJs.trackOpen 60000 (str "id1") {} exReq exStoreEmpty).1).1.emailOpens
        = exStoreEmpty.emailOpens ++ [openDataOf 60000 (str "id1") exReq] ∧
     openCountOf (IndexJs.trackOpen 61000 (str "id2") {} exReq
        (IndexJs.trackOpen 60000 (str "id1") {} exReq exStoreEmpty).1).1.emailTracking
        exReq.emailId
        = openCountOf exStoreEmpty.emailTracking exReq.emailId + 1) ∧
    ((IndexJs.trackOpen 95000 (str "id2") {} exReq
        (IndexJs.trackOpen 60000 (str "id1") {} exReq exStoreEmpty).1).1.emailOpens
        = exStoreEmpty.emailOpens
            ++ [openDataOf 60000 (str "id1") exReq, openDataOf 95000 (str "id2") exReq] ∧
     openCountOf (IndexJs.trackOpen 95000 (str "id2") {} exReq
        (IndexJs.trackOpen 60000 (str "id1") {} exReq exStoreEmpty).1).1.emailTracking
        exReq.emailId
        = openCountOf exStoreEmpty.emailTracking exReq.emailId + 2) ∧
    ((Part000.trackOpen 61000 (str "id2") {} exReq
        (Part000.trackOpen 60000 (str "id1") {} exReq exStoreOld).1).1.emailOpens
        = exStoreOld.emailOpens
            ++ [openDataOf 60000 (str "id1") exReq, openDataOf 61000 (str "id2") exReq] ∧
     openCountOf (Part000.trackOpen 61000 (str "id2") {} exReq
        (Part000.trackOpen 60000 (str "id1") {} exReq exStoreOld).1).1.emailTracking
        exReq.emailId
        = openCountOf exStoreOld.emailTracking exReq.emailId + 2) :=
  ⟨(C1_recent_duplicate_suppression.1 60000 61000 (str "id1") (str "id2") exReq
      exStoreEmpty (by decide) (by decide) (by decide)).1 (by decide),
   (C1_recent_duplicate_suppression.1 60000 95000 (str "id1") (str "id2") exReq
      exStoreEmpty (by decide) (by decide) (by decide)).2 (by decide),
   C1_recent_duplicate_suppression.2 60000 61000 (str "id1") (str "id2") exReq
      exStoreOld exRecOld (by decide) (by decide) (by decide) (by decide)⟩

/-- C1 counterexample: the spec's E2E scenario D run on the `part_000`
handler — a record sent 60 s ago, two clean requests for the same pair 1 s
apart — stores two OpenEvents and leaves `openCount = 2`, contradicting the
claim that the second request within the dedup window stores nothing. -/
theorem C1_counterexample :
    (Part000.trackOpen 61000 (str "id2") {} exReq
        (Part000.trackOpen 60000 (str "id1") {} exReq exStoreOld).1).1.emailOpens
      = [openDataOf 60000 (str "id1") exReq, openDataOf 61000 (str "id2") exReq] ∧
    openCountOf (Part000.trackOpen 61000 (str "id2") {} exReq
        (Part000.trackOpen 60000 (str "id1") {} exReq exStoreOld).1).1.emailTracking
      (str "e1") = 2 := by
  decide

/-- C5 (amended): in the `part_000` handler a request whose user agent is
empty or shorter than 10 characters is rejected with no store change; and a
request whose user agent has length at least 10 and contains no denylist
substring, whose `ipAddress` is not a loopback literal, and which is not
within the 5000 ms send-time window of its record's `sentAt`, is accepted
(one OpenEvent appended).  The `index.js` handler has no length rule: a
3-character agent that misses its denylist is accepted there. -/
theorem C5_short_user_agent :
    (∀ (now : Nat) (newId : Str) (f : Part000.Faults) (req : OpenRequest) (s : Store),
        req.userAgent.length < 10 →
        Part000.trackOpen now newId f req s = (s, pixelResponse)) ∧
    (∀ (now : Nat) (newId : Str) (req : OpenRequest) (s : Store),
        ¬ req.userAgent.length < 10 →
        (∀ t ∈ specDenylist, ¬ t <:+: req.userAgent.map Char.toLower) →
        req.ipAddress ≠ str "127.0.0.1" →
        req.ipAddress ≠ str "::1" →
        req.ipAddress ≠ str "localhost" →
        (∀ doc, s.emailTracking.find? (fun r => r.id == req.emailId) = some doc →
          5000 ≤ now - doc.sentAt) →
        Part000.trackOpen now newId {} req s
            = (acceptedStore now newId req s, pixelResponse) ∧
        (acceptedStore now newId req s).emailOpens
            = s.emailOpens ++ [openDataOf now newId req]) ∧
    (∀ (now : Nat) (newId : Str) (req : OpenRequest) (s : Store),
        IndexJs.isSuspicious req.userAgent = false →
        req.userAgent.length < 10 →
        s.emailOpens.find? (fun o => IndexJs.recentPred now req o) = none →
        IndexJs.trackOpen now newId {} req s
          = (acceptedStore now newId req s, pixelResponse)) := by
  refine ⟨?_, ?_, ?_⟩
  · intro now newId f req s h
    apply Part000.trackOpen_reject_automated
    unfold Part000.isAutomatedRequest
    simp [h]
  · intro now newId req s hlen hDeny hip1 hip2 hip3 hSend
    have hAny : Part000.automatedAgents.any
        (fun a => decide (a <:+: req.userAgent.map Char.toLower)) = false := by
      rw [List.any_eq_false]
      intro a ha
      simp only [decide_eq_true_eq]
      fin_cases ha <;>
        first
          | exact hDeny _ (by decide)
          | exact fun h => hDeny (str "mail") (by decide)
              ((by decide : str "mail" <:+: str "email").trans h)
    have hA : Part000.isAutomatedRequest req.userAgent req.ipAddress = false := by
      unfold Part000.isAutomatedRequest
      simp [hAny, beq_eq_false_iff_ne.mpr hip1, beq_eq_false_iff_ne.mpr hip2,
        beq_eq_false_iff_ne.mpr hip3, hlen]
    refine ⟨?_, acceptedStore_emailOpens _ _ _ _⟩
    cases hFind : s.emailTracking.find? (fun r => r.id == req.emailId) with
    | some doc =>
      exact Part000.trackOpen_accept_oldRecord _ _ _ _ _ _ hA rfl hFind
        (hSend doc hFind) rfl rfl rfl
    | none => exact Part000.trackOpen_accept_noRecord _ _ _ _ _ hA hFind rfl rfl rfl
  · intro now newId req s hA hlen hNone
    exact IndexJs.trackOpen_accept _ _ _ _ _ hA rfl rfl rfl rfl hNone

/-- C5 witness: `abc` is rejected by `part_000`; the clean long agent from a
routable address on an empty store is accepted by `part_000`; and `index.js`
accepts the same 3-character agent. -/
theorem C5_short_user_agent_witness :
    Part000.trackOpen 60000 (str "id1") {} exReqShort exStoreEmpty
      = (exStoreEmpty, pixelResponse) ∧
    Part000.trackOpen 60000 (str "id1") {} exReq exStoreEmpty
      = (acceptedStore 60000 (str "id1") exReq exStoreEmpty, pixelResponse) ∧
    IndexJs.trackOpen 60000 (str "id1") {} exReqShort exStoreEmpty
      = (acceptedStore 60000 (str "id1") exReqShort exStoreEmpty, pixelResponse) :=
  ⟨C5_short_user_agent.1 60000 (str "id1") {} exReqShort exStoreEmpty (by decide),
   (C5_short_user_agent.2.1 60000 (str "id1") exReq exStoreEmpty (by decide) (by decide)
     (by decide) (by decide) (by decide)
     (fun doc h => by simp [exStoreEmpty] at h)).1,
   C5_short_user_agent.2.2 60000 (str "id1") exReqShort exStoreEmpty (by decide) (by decide)
     (by decide)⟩

/-- C5 counterexample: a request with a 29-character browser agent containing
no denylist substring, on an empty store (so the send-time rule cannot fire),
is nonetheless rejected by `part_000` because its `ipAddress` is `127.0.0.1` —
no OpenEvent is stored, contradicting the claim's acceptance condition, which
ignores the loopback rule. -/
theorem C5_counterexample :
    ¬ exReqWinLoop.userAgent.length < 10 ∧
    (∀ t ∈ specDenylist, ¬ t <:+: exReqWinLoop.userAgent.map Char.toLower) ∧
    exStoreEmpty.emailTracking = [] ∧
    Part000.trackOpen 60000 (str "id1") {} exReqWinLoop exStoreEmpty
      = (exStoreEmpty, pixelResponse) := by
  decide

/-- C6 (amended): every rejection in the `part_000` handler, and a user-agent
rejection in the `index.js` handler, leaves the store unchanged; an
`index.js` duplicate-suppressed request inserts no OpenEvent and increments
no counter, but the upsert that runs before the dedup check may create the
EmailRecord (see the counterexample).  Every accepted request performs
exactly one OpenEvent insert and one `openCount` increment. -/
theorem C6_side_effect_frame :
    (∀ (now : Nat) (newId : Str) (f : Part000.Faults) (req : OpenRequest) (s : Store),
        Part000.isAutomatedRequest req.userAgent req.ipAddress = true →
        Part000.trackOpen now newId f req s = (s, pixelResponse)) ∧
    (∀ (now : Nat) (newId : Str) (f : Part000.Faults) (req : OpenRequest) (s : Store)
        (doc : EmailRecord),
        Part000.isAutomatedRequest req.userAgent req.ipAddress = false →
        f.sendFindFails = false →
        s.emailTracking.find? (fun r => r.id == req.emailId) = some doc →
        now - doc.sentAt < 5000 →
        Part000.trackOpen now newId f req s = (s, pixelResponse)) ∧
    (∀ (now : Nat) (newId : Str) (f : IndexJs.Faults) (req : OpenRequest) (s : Store),
        IndexJs.isSuspicious req.userAgent = true →
        IndexJs.trackOpen now newId f req s = (s, pixelResponse)) ∧
    (∀ (now : Nat) (newId : Str) (req : OpenRequest) (s : Store) (ev : OpenEvent),
        IndexJs.isSuspicious req.userAgent = false →
        s.emailOpens.find? (fun o => IndexJs.recentPred now req o) = some ev →
        (IndexJs.trackOpen now newId {} req s).1.emailOpens = s.emailOpens ∧
        (∀ e, openCountOf (IndexJs.trackOpen now newId {} req s).1.emailTracking e
          = openCountOf s.emailTracking e)) ∧
    (∀ (now : Nat) (newId : Str) (req : OpenRequest) (s : Store),
        IndexJs.isSuspicious req.userAgent = false →
        s.emailOpens.find? (fun o => IndexJs.recentPred now req o) = none →
        (IndexJs.trackOpen now newId {} req s).1.emailOpens
            = s.emailOpens ++ [openDataOf now newId req] ∧
        openCountOf (IndexJs.trackOpen now newId {} req s).1.emailTracking req.emailId
            = openCountOf s.emailTracking req.emailId + 1) ∧
    (∀ (now : Nat) (newId : Str) (req : OpenRequest) (s : Store),
        Part000.isAutomatedRequest req.userAgent req.ipAddress = false →
        (∀ doc, s.emailTracking.find? (fun r => r.id == req.emailId) = some doc →
          5000 ≤ now - doc.sentAt) →
        (Part000.trackOpen now newId {} req s).1.emailOpens
            = s.emailOpens ++ [openDataOf now newId req] ∧
        openCountOf (Part000.trackOpen now newId {} req s).1.emailTracking req.emailId
            = openCountOf s.emailTracking req.emailId + 1) := by
  refine ⟨Part000.trackOpen_reject_automated, Part000.trackOpen_reject_sendtime,
    IndexJs.trackOpen_reject_suspicious, ?_, ?_, ?_⟩
  · intro now newId req s ev hA hFound
    rw [IndexJs.trackOpen_dedup_skip now newId {} req s ev hA rfl rfl hFound]
    exact ⟨rfl, fun e => IndexJs.dedupSkippedStore_openCountOf now req s e⟩
  · intro now newId req s hA hNone
    rw [IndexJs.trackOpen_accept now newId {} req s hA rfl rfl rfl rfl hNone]
    exact ⟨rfl, openCountOf_acceptedStore now newId req s⟩
  · intro now newId req s hA hSend
    have h : Part000.trackOpen now newId {} req s
        = (acceptedStore now newId req s, pixelResponse) := by
      cases hFind : s.emailTracking.find? (fun r => r.id == req.emailId) with
      | some doc =>
        exact Part000.trackOpen_accept_oldRecord _ _ _ _ _ _ hA rfl hFind
          (hSend doc hFind) rfl rfl rfl
      | none => exact Part000.trackOpen_accept_noRecord _ _ _ _ _ hA hFind rfl rfl rfl
    rw [h]
    exact ⟨rfl, openCountOf_acceptedStore now newId req s⟩

/-- C6 witness: the five rejection and acceptance frame facts at concrete
inputs: `part_000` short-agent and send-time rejections, an `index.js`
suspicious rejection, an `index.js` duplicate suppression, and accepted
requests on both handlers. -/
theorem C6_side_effect_frame_witness :
    Part000.trackOpen 60000 (str "id1") {} exReqShort exStoreEmpty
      = (exStoreEmpty, pixelResponse) ∧
    Part000.trackOpen 1000 (str "id1") {} exReq exStoreOld
      = (exStoreOld, pixelResponse) ∧
    IndexJs.trackOpen 60000 (str "id1") {} { exReq with userAgent := str "uvwBoTuvw" }
      exStorePrior = (exStorePrior, pixelResponse) ∧
    (IndexJs.trackOpen 110000 (str "id1") {} exReq exStorePrior).1.emailOpens
      = exStorePrior.emailOpens ∧
    (IndexJs.trackOpen 60000 (str "id1") {} exReq exStoreEmpty).1.emailOpens
      = exStoreEmpty.emailOpens ++ [openDataOf 60000 (str "id1") exReq] ∧
    (Part000.trackOpen 60000 (str "id1") {} exReq exStoreEmpty).1.emailOpens
      = exStoreEmpty.emailOpens ++ [openDataOf 60000 (str "id1") exReq] :=
  ⟨C6_side_effect_frame.1 60000 (str "id1") {} exReqShort exStoreEmpty (by decide),
   C6_side_effect_frame.2.1 1000 (str "id1") {} exReq exStoreOld exRecOld (by decide) rfl
     (by decide) (by decide),
   C6_side_effect_frame.2.2.1 60000 (str "id1") {} { exReq with userAgent := str "uvwBoTuvw" }
     exStorePrior (by decide),
   (C6_side_effect_frame.2.2.2.1 110000 (str "id1") exReq exStorePrior exEvPrior
     (by decide) (by decide)).1,
   (C6_side_effect_frame.2.2.2.2.1 60000 (str "id1") exReq exStoreEmpty (by decide)
     (by decide)).1,
   (C6_side_effect_frame.2.2.2.2.2 60000 (str "id1") exReq exStoreEmpty (by decide)
     (fun doc h => by simp [exStoreEmpty] at h)).1⟩

/-- C6 counterexample: on a store holding a recent OpenEvent for `(e1,
r@x.com)` but no EmailRecord, the `index.js` handler suppresses the request
as a duplicate — no insert, no increment — yet creates an EmailRecord via the
upsert that precedes the dedup check, so a rejected request does modify the
store, contradicting the claim. -/
theorem C6_counterexample :
    (IndexJs.trackOpen 110000 (str "n1") {} exReq exStorePrior).1.emailOpens
      = exStorePrior.emailOpens ∧
    openCountOf
      (IndexJs.trackOpen 110000 (str "n1") {} exReq exStorePrior).1.emailTracking
      (str "e1") = openCountOf exStorePrior.emailTracking (str "e1") ∧
    exStorePrior.emailTracking = [] ∧
    (IndexJs.trackOpen 110000 (str "n1") {} exReq exStorePrior).1.emailTracking
      = [baseDefaults 110000 (str "e1") { recipientEmail := some (str "r@x.com") }] := by
  decide

/-- C8 (amended): every fault configuration of every store operation still
yields the pixel response (no error escapes, no retry is modelled); a failure
of the upsert leaves the whole store unchanged, and a failure at or before
the insert leaves the OpenEvents unchanged; but writes completed before the
failing operation are kept — when the `openCount` update fails after the
insert succeeded, the OpenEvent remains recorded — and in `part_000` a failed
send-time lookup is swallowed and handling continues to the accept path. -/
theorem C8_store_failure_degradation :
    (∀ (now : Nat) (newId : Str) (f : IndexJs.Faults) (req : OpenRequest) (s : Store),
        (IndexJs.trackOpen now newId f req s).2 = pixelResponse) ∧
    (∀ (now : Nat) (newId : Str) (f : Part000.Faults) (req : OpenRequest) (s : Store),
        (Part000.trackOpen now newId f req s).2 = pixelResponse) ∧
    (∀ (now : Nat) (newId : Str) (f : IndexJs.Faults) (req : OpenRequest) (s : Store),
        f.ensureFails = true → (IndexJs.trackOpen now newId f req s).1 = s) ∧
    (∀ (now : Nat) (newId : Str) (f : IndexJs.Faults) (req : OpenRequest) (s : Store),
        f.insertFails = true →
        (IndexJs.trackOpen now newId f req s).1.emailOpens = s.emailOpens) ∧
    (∀ (now : Nat) (newId : Str) (req : OpenRequest) (s : Store),
        IndexJs.isSuspicious req.userAgent = false →
        s.emailOpens.find? (fun o => IndexJs.recentPred now req o) = none →
        (IndexJs.trackOpen now newId { incFails := true } req s).1.emailOpens
            = s.emailOpens ++ [openDataOf now newId req] ∧
        (∀ e, openCountOf
            (IndexJs.trackOpen now newId { incFails := true } req s).1.emailTracking e
          = openCountOf s.emailTracking e)) ∧
    (∀ (now : Nat) (newId : Str) (req : OpenRequest) (s : Store),
        Part000.isAutomatedRequest req.userAgent req.ipAddress = false →
        Part000.trackOpen now newId { sendFindFails := true } req s
          = (acceptedStore now newId req s, pixelResponse)) := by
  refine ⟨?_, ?_, ?_, ?_, ?_, ?_⟩
  · intro now newId f req s
    simp only [IndexJs.trackOpen]
    repeat' split
    all_goals rfl
  · intro now newId f req s
    simp only [Part000.trackOpen]
    repeat' split
    all_goals rfl
  · intro now newId f req s h
    simp only [IndexJs.trackOpen, h]
    repeat' split
    all_goals first | rfl | simp_all
  · intro now newId f req s h
    simp only [IndexJs.trackOpen, h]
    repeat' split
    all_goals first | rfl | simp_all
  · intro now newId req s hA hNone
    rw [IndexJs.trackOpen_incFails now newId req s hA hNone]
    exact ⟨rfl, fun e => openCountOf_ensure now req.emailId _ s.emailTracking e rfl⟩
  · intro now newId req s hA
    exact Part000.trackOpen_accept_sendFindFails now newId _ req s hA rfl rfl rfl rfl

/-- C8 witness: the four degradation facts at concrete inputs — a failed
upsert leaves the store as it was, a failed insert leaves the OpenEvents as
they were, a failed counter update keeps the inserted OpenEvent, and a failed
send-time lookup in `part_000` still records the open; the pixel is served
every time. -/
theorem C8_store_failure_degradation_witness :
    (IndexJs.trackOpen 60000 (str "id1") { ensureFails := true } exReq exStoreEmpty).1
      = exStoreEmpty ∧
    (IndexJs.trackOpen 60000 (str "id1") { insertFails := true } exReq exStoreOld).1.emailOpens
      = exStoreOld.emailOpens ∧
    (IndexJs.trackOpen 60000 (str "id1") { incFails := true } exReq exStoreEmpty).1.emailOpens
      = exStoreEmpty.emailOpens ++ [openDataOf 60000 (str "id1") exReq] ∧
    Part000.trackOpen 1000 (str "id1") { sendFindFails := true } exReq exStoreOld
      = (acceptedStore 1000 (str "id1") exReq exStoreOld, pixelResponse) ∧
    (IndexJs.trackOpen 60000 (str "id1") { incFails := true } exReq exStoreEmpty).2
      = pixelResponse :=
  ⟨C8_store_failure_degradation.2.2.1 60000 (str "id1") { ensureFails := true } exReq
     exStoreEmpty rfl,
   C8_store_failure_degradation.2.2.2.1 60000 (str "id1") { insertFails := true } exReq
     exStoreOld rfl,
   (C8_store_failure_degradation.2.2.2.2.1 60000 (str "id1") exReq exStoreEmpty (by decide)
     (by decide)).1,
   C8_store_failure_degradation.2.2.2.2.2 1000 (str "id1") exReq exStoreOld (by decide),
   C8_store_failure_degradation.1 60000 (str "id1") { incFails := true } exReq exStoreEmpty⟩

/-- C8 counterexample: with the `openCount` update raising after a successful
insert, the `index.js` handler serves the pixel — but an OpenEvent has been
recorded, contradicting the claim that on any store error no OpenEvent is
recorded.  (`part_000` at `t = 1000` on the fresh record also records an open
when the send-time lookup itself fails, though it would have rejected the
request had the lookup succeeded.) -/
theorem C8_counterexample :
    (IndexJs.trackOpen 60000 (str "id1") { incFails := true } exReq exStoreEmpty).1.emailOpens
      = [openDataOf 60000 (str "id1") exReq] ∧
    (IndexJs.trackOpen 60000 (str "id1") { incFails := true } exReq exStoreEmpty).2
      = pixelResponse ∧
    (Part000.trackOpen 1000 (str "id1") { sendFindFails := true } exReq exStoreOld).1.emailOpens
      = [openDataOf 1000 (str "id1") exReq] ∧
    (Part000.trackOpen 1000 (str "id1") {} exReq exStoreOld).1.emailOpens = [] := by
  decide

end Tracker
